import Mathlib

/-!
Verification development for the `uppdater` game-server update monitor.

The Python sources under `src/core/` are shallowly embedded as executable
Lean definitions: byte strings become `List Nat`, Python `str` becomes
`String`/`List Char`, machine `int` becomes `Int` (with explicit `% 2^32`
where the wire format truncates), fallible code returns `Option`/`Except`,
and external effects (sockets, filesystem, subprocess, HTTP) are passed in
explicitly as values describing the outcome of each effect.
-/

namespace PZ

/-! ## Character helpers (Python whitespace, digits, case folding)

`isPySpace` models the character class matched by Python's regex `\s` on
`str` and stripped by `str.strip()`: the six ASCII whitespace characters
plus the Unicode whitespace characters. -/

def isPySpace (c : Char) : Bool :=
  c = ' ' || c = '\t' || c = '\n' || c = '\r' || c = '\x0b' || c = '\x0c' ||
  c = '\x1c' || c = '\x1d' || c = '\x1e' || c = '\x1f' || c = '\x85' || c = '\xa0' ||
  c = '\u1680' || c = '\u2000' || c = '\u2001' || c = '\u2002' || c = '\u2003' ||
  c = '\u2004' || c = '\u2005' || c = '\u2006' || c = '\u2007' || c = '\u2008' ||
  c = '\u2009' || c = '\u200a' || c = '\u2028' || c = '\u2029' || c = '\u202f' ||
  c = '\u205f' || c = '\u3000'

/-- Case-sensitive or ASCII case-insensitive character comparison
(Python `re.IGNORECASE` restricted to the ASCII keys used by the source). -/
def eqChar (ci : Bool) (a b : Char) : Bool :=
  if ci then a.toLower = b.toLower else a = b

/-- Consume an expected literal from the front of a character list; returns
the remainder on success.  Models matching a fixed substring of a regex. -/
def consumeLit (ci : Bool) : List Char → List Char → Option (List Char)
  | [], cs => some cs
  | _ :: _, [] => none
  | k :: ks, c :: cs => if eqChar ci k c then consumeLit ci ks cs else none

/-- Python `str.strip()` (both ends, Python whitespace). -/
def pyStrip (l : List Char) : List Char :=
  ((l.dropWhile isPySpace).reverse.dropWhile isPySpace).reverse

/-- Value of a nonempty decimal digit string (Python `int(...)` on the
captured group of `(\d+)`). -/
def digitsToNat (ds : List Char) : Nat :=
  ds.foldl (fun n c => 10 * n + (c.toNat - 48)) 0

/-! ## RCON wire protocol (`src/core/rcon_client.py`) -/

/-- A decoded RCON packet: request id, packet type, raw body bytes.
Mirrors the triple returned by `_recv_packet`. -/
structure RPacket where
  reqId : Int
  packetType : Int
  body : List Nat
  deriving DecidableEq, Repr

/-- The fixed request id used by `_authenticate` when sending the
`SERVERDATA_AUTH` packet (`_send_packet(sock, 1, 3, password)`). -/
def authReqId : Int := 1

/-- The fixed request id used by `send_command` for `SERVERDATA_EXECCOMMAND`
(`_send_packet(sock, 2, 2, command)`). -/
def execReqId : Int := 2

/-- The authentication read loop of `_authenticate`, lines 41-46 of
`rcon_client.py`, over the stream of incoming packets: read packets until
one of type `2` (`SERVERDATA_AUTH_RESPONSE`) arrives and answer
`req_id != -1`; a packet of another type carrying request id `-1` fails
immediately.  `none` models the stream ending first (the socket read then
raises `RconError "Connection closed by server"`). -/
def authenticate : List RPacket → Option Bool
  | [] => none
  | p :: rest =>
    if p.packetType = 2 then some (decide (p.reqId ≠ -1))
    else if p.reqId = -1 then some false
    else authenticate rest

/-- Outcome of the single packet read performed by `send_command` after the
`EXECCOMMAND` packet: a packet arrived, the read timed out
(`socket.timeout`), or the peer closed the connection mid-frame. -/
inductive ExecRead where
  | timeout : ExecRead
  | closed : ExecRead
  | packet : RPacket → ExecRead
  deriving DecidableEq

/-- Lines 62-68 of `rcon_client.py`: the response handling of
`send_command` after the `EXECCOMMAND` packet has been sent.  The `.ok`
payload is the raw body bytes (the source returns
`body.decode("utf-8", errors="replace")`; a timeout returns the empty
string, i.e. the decoding of `[]`).  A `RconError` raised by
`_recv_exact` on a closed connection is not caught by the
`except socket.timeout` handler and propagates. -/
def execResponse : ExecRead → Except String (List Nat)
  | .timeout => .ok []
  | .closed => .error ("Connection closed by server")
  | .packet p =>
    if p.packetType = 0 ∨ p.packetType = 2 then .ok p.body
    else .error ("Unexpected packet type")

/-! ### Wire framing (`_send_packet` / `_recv_packet`) -/

/-- The four little-endian bytes of `u % 2^32` (`struct.pack "<i"` after
two's-complement reduction). -/
def le4 (u : Nat) : List Nat :=
  [u % 256, u / 256 % 256, u / 65536 % 256, u / 16777216 % 256]

/-- `struct.pack("<i", x)`: little-endian two's-complement 32-bit encoding.
`struct.error` (raised when `x` is out of range) is modelled as `none`. -/
def packInt32 (x : Int) : Option (List Nat) :=
  if -(2 ^ 31) ≤ x ∧ x < 2 ^ 31 then some (le4 (x % 2 ^ 32).toNat) else none

/-- `struct.unpack("<i", bs)`: decode four little-endian bytes as a signed
32-bit integer. -/
def unpackInt32 (bs : List Nat) : Int :=
  match bs with
  | [a, b, c, d] =>
    let u : Nat := a + 256 * b + 65536 * c + 16777216 * d
    if u < 2 ^ 31 then (u : Int) else (u : Int) - 2 ^ 32
  | _ => 0

/-- `_send_packet` (lines 32-36): the bytes written to the socket for a
request id, packet type and body, i.e.
`int32(len(body)+10) ++ int32(req_id) ++ int32(type) ++ body ++ 0x00 0x00`.
`none` models `struct.error` on an out-of-range field. -/
def sendPacketBytes (reqId packetType : Int) (body : List Nat) : Option (List Nat) :=
  (packInt32 ((body.length : Int) + 10)).bind (fun a =>
    (packInt32 reqId).bind (fun b =>
      (packInt32 packetType).bind (fun c =>
        some (a ++ b ++ c ++ body ++ [0, 0]))))

/-- `_recv_exact` (lines 11-20): read exactly `n` bytes from the stream,
failing with `RconError` if the stream ends first.  Returns the bytes read
and the remaining stream. -/
def recvExact (n : Nat) (s : List Nat) : Except String (List Nat × List Nat) :=
  if s.length < n then .error ("Connection closed by server")
  else .ok (s.take n, s.drop n)

/-- `_recv_packet` (lines 23-29): read the 4-byte little-endian length
header, then exactly that many payload bytes; the first eight payload bytes
are the request id and packet type, the body is `payload[8:-2]`.
A non-positive length makes `_recv_exact` return no bytes (the `while`
guard fails immediately) and `struct.unpack` then raises on the short
buffer, modelled as an error. -/
def recvPacket (s : List Nat) : Except String (RPacket × List Nat) :=
  match recvExact 4 s with
  | .error e => .error e
  | .ok (raw, s1) =>
    let len := unpackInt32 raw
    match (if len ≤ 0 then Except.ok ([], s1) else recvExact len.toNat s1) with
    | .error e => .error e
    | .ok (payload, s2) =>
      if payload.length < 8 then .error ("struct unpack error")
      else
        .ok ({ reqId := unpackInt32 (payload.take 4),
               packetType := unpackInt32 ((payload.drop 4).take 4),
               body := (payload.drop 8).take (payload.length - 10) }, s2)

/-! ## Line-anchored regex scanners shared by `steam_app.py` and
`workshop.py`

Python's multiline regexes `(?m)^...$` anchor exactly at newline (`\n`)
boundaries, so a search for the first match of a fully line-anchored
pattern is the scan of the `\n`-separated fragments in order. -/

/-- The fragments of a text between `\n` characters (the line decomposition
used by `(?m)^...$` regex anchors). -/
def splitOnNl (cs : List Char) : List (List Char) := cs.splitOn '\n'

/-- Does one line match `^\s*"<key>"\s*"(\d+)"\s*$`?  Returns the captured
digit group.  `ci` selects the `(?i)` flag; keys are given in lowercase for
the case-insensitive uses. -/
def quotedKeyLine (ci : Bool) (key : List Char) (line : List Char) : Option (List Char) :=
  match consumeLit ci ('"' :: key ++ ['"']) (line.dropWhile isPySpace) with
  | none => none
  | some r =>
    match r.dropWhile isPySpace with
    | '"' :: r2 =>
      if (r2.takeWhile Char.isDigit).isEmpty then none
      else
        match r2.dropWhile Char.isDigit with
        | '"' :: tail =>
          if (tail.dropWhile isPySpace).isEmpty then some (r2.takeWhile Char.isDigit)
          else none
        | _ => none
    | _ => none

/-- First match of `(?m)^\s*"<key>"\s*"(\d+)"\s*$` in a text
(`re.search` with the multiline flag; `ci` adds `(?i)`). -/
def findQuotedKey (ci : Bool) (key : List Char) (text : List Char) : Option (List Char) :=
  (splitOnNl text).findSome? (quotedKeyLine ci key)

/-- The key `"buildid"` searched for by `_parse_buildid` and
`parse_appmanifest_build_info`. -/
def keyBuildid : List Char := ("buildid").toList

/-! ## `src/core/steam_app.py`: manifest parsing and VDF block extraction -/

/-- The opening brace character (x7b). -/
def lbrace : Char := Char.ofNat 123

/-- The closing brace character (x7d). -/
def rbrace : Char := Char.ofNat 125

/-- The suffix of the text immediately after the first occurrence of
`needle` (models `text.find(needle)` followed by scanning from that
position: the needles used contain no brace, so continuing right after the
needle is equivalent). -/
def afterSubstr (needle : List Char) : List Char → Option (List Char)
  | [] => match consumeLit false needle [] with
    | some r => some r
    | none => none
  | c :: rest =>
    match consumeLit false needle (c :: rest) with
    | some r => some r
    | none => afterSubstr needle rest

/-- Drop characters up to the next opening brace (models
`text.find("{", pos)`); `none` when there is none. -/
def dropToBrace (cs : List Char) : Option (List Char) :=
  let rest := cs.dropWhile (fun c => c ≠ lbrace)
  if rest.isEmpty then none else some rest

/-- The brace-depth scan of `_extract_named_block` (lines 42-51): starting
at an opening brace, walk forward keeping an exact nesting depth and return
everything up to and including the brace that closes the first one;
`none` when the text ends first. -/
def scanBlock : List Char → Int → Option (List Char)
  | [], _ => none
  | c :: rest, depth =>
    if c = lbrace then (scanBlock rest (depth + 1)).map (fun l => c :: l)
    else if c = rbrace then
      if depth - 1 = 0 then some [c]
      else (scanBlock rest (depth - 1)).map (fun l => c :: l)
    else (scanBlock rest depth).map (fun l => c :: l)

/-- `_extract_named_block` (lines 33-51): find `"<name>"`, then the next
`{`, then the brace-balanced block it opens. -/
def extractNamedBlock (text : List Char) (name : List Char) : Option (List Char) :=
  match afterSubstr ('"' :: name ++ ['"']) text with
  | none => none
  | some t1 =>
    match dropToBrace t1 with
    | none => none
    | some t2 => scanBlock t2 0

/-- `_extract_branch_block` (lines 54-76): extract the top-level
`"branches"` block, then the named branch's own brace-balanced block inside
it. -/
def extract_branch_block (text : List Char) (branch : String) : Option (List Char) :=
  match extractNamedBlock text (("branches").toList) with
  | none => none
  | some blk =>
    match afterSubstr ('"' :: branch.toList ++ ['"']) blk with
    | none => none
    | some t1 =>
      match dropToBrace t1 with
      | none => none
      | some t2 => scanBlock t2 0

/-- The buildid-extraction logic of `steamcmd_get_buildid` (lines 133-141):
the branch-scoped lookup (`_extract_branch_block` then `_parse_buildid`
inside the block) and, only when that fails, the global fallback
(`_parse_buildid` over the whole output, `(?im)`). -/
def steamcmdBuildid (output : String) (branch : String) : Option String :=
  match (extract_branch_block output.toList branch).bind
      (fun blk => findQuotedKey true keyBuildid blk) with
  | some b => some (String.mk b)
  | none => (findQuotedKey true keyBuildid output.toList).map (fun l => String.mk l)

/-! ## `src/core/workshop.py`: workshop-id parsing and mod statuses -/

/-- Remote metadata for one workshop item, as recorded by
`fetch_published_details` (the `ModRemoteInfo` dataclass). -/
structure ModRemoteInfo where
  workshop_id : String
  title : Option String
  time_updated : Option Int
  result : Int
  deriving DecidableEq, Repr

/-- The `ModStatus` dataclass. -/
structure ModStatus where
  workshop_id : String
  local_mtime : Option Int
  remote_time_updated : Option Int
  remote_title : Option String
  deriving DecidableEq, Repr

/-- `ModStatus.is_outdated` (lines 31-37 of `workshop.py`): `False` when
the remote time is unknown, `True` when only the local time is unknown,
otherwise `remote_time_updated > local_mtime`. -/
def ModStatus.is_outdated (s : ModStatus) : Bool :=
  match s.remote_time_updated with
  | none => false
  | some r =>
    match s.local_mtime with
    | none => true
    | some l => decide (l < r)

/-- Does a line match `(?im)^\s*WorkshopItems\s*=\s*(.+?)\s*$`?  Returns
the raw text after the `=` (the `.+?` group requires at least one
character on the line after the `=`; the group with its surrounding `\s*`
amounts to that text stripped, which the caller performs). -/
def workshopLine (line : List Char) : Option (List Char) :=
  match consumeLit true (("workshopitems").toList) (line.dropWhile isPySpace) with
  | none => none
  | some r =>
    match r.dropWhile isPySpace with
    | '=' :: rest => if rest.isEmpty then none else some rest
    | _ => none

/-- The `;`-separated parts of the matched value, each stripped, empty
parts removed (`[p.strip() for p in raw.split(";") if p.strip()]`). -/
def partsOf (raw : List Char) : List (List Char) :=
  (((pyStrip raw).splitOn ';').map pyStrip).filter (fun p => ¬ p.isEmpty)

/-- Keep the all-digit parts (`part.isdigit()`), deduplicated preserving
first-seen order (the `seen` set of `parse_workshop_ids_from_ini`). -/
def collectIds : List (List Char) → List (List Char) → List String
  | [], _ => []
  | p :: ps, seen =>
    if (¬ p.isEmpty && p.all Char.isDigit) && ¬ seen.contains p then
      String.mk p :: collectIds ps (p :: seen)
    else collectIds ps seen

/-- The pure part of `parse_workshop_ids_from_ini` (lines 44-57): find the
first `WorkshopItems = ...` line, split on `;`, keep numeric tokens,
deduplicate preserving order. -/
def parseWorkshopIds (text : String) : List String :=
  match (splitOnNl text.toList).findSome? workshopLine with
  | none => []
  | some rest => collectIds (partsOf rest) []

/-- One entry of the JSON envelope `response.publishedfiledetails[]` after
JSON decoding, as consumed by `fetch_published_details` (lines 87-106):
`publishedfileid` as a string, `result` and `time_updated` as integers
(absent `time_updated` arrives as `0` through `int(... or 0)`), `title`
optional.  Transport and JSON-decoding failures of the whole request are
modelled by the `Except` outcome carried in the `World` below. -/
structure ApiItem where
  publishedfileid : String
  result : Int
  title : Option String
  time_updated : Int
  deriving DecidableEq, Repr

/-- The expected-failure taxonomy of `check_updates`: the ini file being
absent raises `FileNotFoundError`; an unreachable catalog API (or a bad
JSON body) raises out of `urllib`/`json`. -/
inductive CheckError where
  | iniNotFound : CheckError
  | apiError : String → CheckError
  deriving DecidableEq, Repr

/-- Replace the value under a key, else append: Python dict assignment
`out[wid] = ...` preserving insertion order. -/
def upsert : List (String × ModRemoteInfo) → String → ModRemoteInfo → List (String × ModRemoteInfo)
  | [], k, v => [(k, v)]
  | (k0, v0) :: rest, k, v =>
    if k0 = k then (k, v) :: rest else (k0, v0) :: upsert rest k v

/-- Processing of one `publishedfiledetails` entry (lines 88-106): skip a
blank id; an entry with `result != 1` carries no usable time or title;
otherwise `time_updated` `0` is normalised to absent
(`int(item.get("time_updated") or 0) or None`). -/
def applyItem (m : List (String × ModRemoteInfo)) (item : ApiItem) : List (String × ModRemoteInfo) :=
  let wid := String.mk (pyStrip item.publishedfileid.toList)
  if wid = ("") then m
  else if item.result ≠ 1 then
    upsert m wid { workshop_id := wid, title := none, time_updated := none, result := item.result }
  else
    upsert m wid { workshop_id := wid, title := item.title,
                   time_updated := if item.time_updated = 0 then none else some item.time_updated,
                   result := item.result }

/-- Python dict lookup `remote_map.get(wid)` over the insertion-ordered
association list built by `applyItem`. -/
def mapGet (m : List (String × ModRemoteInfo)) (k : String) : Option ModRemoteInfo :=
  (m.find? (fun p => p.1 = k)).map (fun p => p.2)

/-- `fetch_published_details` (lines 66-107): an empty id list returns the
empty map without any network traffic; otherwise the outcome of the single
batched POST (given as `outcome`) either propagates as an exception or its
items are folded into the map. -/
def fetch_published_details (ids : List String) (outcome : Except String (List ApiItem)) :
    Except CheckError (List (String × ModRemoteInfo)) :=
  if ids.isEmpty then .ok []
  else
    match outcome with
    | .error e => .error (.apiError e)
    | .ok items => .ok (items.foldl applyItem [])

/-! ## The effect environment of one `check_updates` call -/

/-- Everything `check_updates` observes from the outside world in one call:
the server ini file, the outcome of the catalog POST, the per-id local
freshness timestamp computed by `get_local_mod_mtime` (a pure function of
the filesystem, abstracted as an oracle since no claim depends on its
directory walk), the app manifest file, and the steamcmd invocation
(`steamcmdRun .ok` carries the combined stdout+stderr text; `.error`
carries the exception message of a failed `subprocess.run`).  The
best-effort dump-file write of `steamcmd_get_buildid` has no observable
effect on the result and is not modelled. -/
structure World where
  iniExists : Bool
  iniText : String
  apiOutcome : Except String (List ApiItem)
  localMtime : String → Option Int
  manifestExists : Bool
  manifestText : String
  steamcmdExists : Bool
  steamcmdRun : Except String String

/-- `parse_workshop_ids_from_ini` (lines 40-57): a missing ini file is a
hard `FileNotFoundError`. -/
def parse_workshop_ids_from_ini (w : World) : Except CheckError (List String) :=
  if w.iniExists = false then .error .iniNotFound
  else .ok (parseWorkshopIds w.iniText)

/-- `build_mod_statuses` (lines 132-152): ids from the ini, one batched
catalog query, one `ModStatus` per id in order. -/
def build_mod_statuses (w : World) : Except CheckError (List ModStatus) :=
  match parse_workshop_ids_from_ini w with
  | .error e => .error e
  | .ok ids =>
    match fetch_published_details ids w.apiOutcome with
    | .error e => .error e
    | .ok remoteMap =>
      .ok (ids.map (fun wid =>
        { workshop_id := wid
          local_mtime := w.localMtime wid
          remote_time_updated := (mapGet remoteMap wid).bind (fun r => r.time_updated)
          remote_title := (mapGet remoteMap wid).bind (fun r => r.title) }))

/-- `parse_appmanifest_build_info` (`steam_app.py` lines 14-30): absent
file yields `(None, None)`; otherwise the first `"buildid" "digits"` line
(case-sensitive) and the first `"LastUpdated" "digits"` line. -/
def parse_appmanifest_build_info (w : World) : Option String × Option Int :=
  if w.manifestExists = false then (none, none)
  else
    ((findQuotedKey false keyBuildid w.manifestText.toList).map (fun l => String.mk l),
     (findQuotedKey false (("LastUpdated").toList) w.manifestText.toList).map
       (fun ds => (digitsToNat ds : Int)))

/-- `steamcmd_get_buildid` (lines 86-143): a missing tool or a failed
subprocess is recorded as a diagnostic string, never raised; otherwise the
buildid is extracted from the combined output, branch-scoped first with a
global fallback. -/
def steamcmd_get_buildid (w : World) (branch : String) : Option String × Option String :=
  if w.steamcmdExists = false then (none, some ("steamcmd not found"))
  else
    match w.steamcmdRun with
    | .error e => (none, some (("steamcmd failed: ") ++ e))
    | .ok output =>
      match steamcmdBuildid output branch with
      | some b => (some b, none)
      | none => (none, some ("buildid not found in steamcmd output"))

/-! ## `src/core/updates.py`: the update check -/

/-- The `UpdateResult` dataclass (the `appmanifest_path` field, a pure
echo of a configuration path, is omitted). -/
structure UpdateResult where
  mods_outdated : Bool
  server_outdated : Bool
  mod_statuses : List ModStatus
  local_buildid : Option String
  remote_buildid : Option String
  steamcmd_error : Option String
  deriving DecidableEq, Repr

/-- `UpdateResult.any_outdated`. -/
def UpdateResult.any_outdated (r : UpdateResult) : Bool :=
  r.mods_outdated || r.server_outdated

/-- Lines 52-54 of `updates.py`:
`if local_buildid and remote_buildid and local_buildid != remote_buildid`.
Python truthiness of a string is "present and nonempty". -/
def serverOutdatedCalc (lo ro : Option String) : Bool :=
  match lo, ro with
  | some l, some r => ¬ l.isEmpty && ¬ r.isEmpty && l ≠ r
  | _, _ => false

/-- `check_updates` (lines 26-64): mod statuses (which may raise for a
missing ini or a failed catalog call), manifest buildid, steamcmd buildid
with its diagnostic, and the aggregate flags. -/
def check_updates (w : World) (branch : String) : Except CheckError UpdateResult :=
  match build_mod_statuses w with
  | .error e => .error e
  | .ok statuses =>
    let lb := (parse_appmanifest_build_info w).1
    let rbe := steamcmd_get_buildid w branch
    .ok { mods_outdated := statuses.any (fun s => s.is_outdated)
          server_outdated := serverOutdatedCalc lb rbe.1
          mod_statuses := statuses
          local_buildid := lb
          remote_buildid := rbe.1
          steamcmd_error := rbe.2 }

/-! ## `src/core/restart.py`: the restart sequence

The sequence performs exactly two kinds of observable actions: sleeping
for a number of seconds (`time.sleep`) and sending one RCON command
(`rcon.send_command`).  The embedding records the sequence of requested
actions as a trace; logger lines are not observable actions of the server
and are omitted. -/

/-- One observable action of the restart sequence. -/
inductive REvent where
  | sleep : Int → REvent
  | send : String → REvent
  deriving DecidableEq, Repr

/-- The configuration fields consumed by `run_restart_sequence`.
`msg_countdown_fmt n` is the outcome of
`cfg.msg_countdown.format(seconds=n)`: `none` models the `except Exception`
branch (a template for which `.format` raises). -/
structure RestartCfg where
  restart_delay_sec : Int
  warn_1_min_sec : Int
  countdown_sec : Int
  msg_restart_5min : String
  msg_restart_1min : String
  msg_countdown_fmt : Int → Option String
  save_command : String
  quit_command : String

/-- `_send_servermsg` (lines 10-12): the command text sent for a broadcast. -/
def servermsgCmd (s : String) : String := ("servermsg \"") ++ s ++ ("\"")

/-- `_sleep_seconds` (lines 15-18): no action when the requested duration
is not positive. -/
def sleepSeconds (t : Int) : List REvent :=
  if t ≤ 0 then [] else [.sleep t]

/-- `delay = max(cfg.restart_delay_sec, 0)` (line 33). -/
def clampDelay (cfg : RestartCfg) : Int := max cfg.restart_delay_sec 0

/-- `warn_1 = min(max(cfg.warn_1_min_sec, 0), delay)` (line 34). -/
def clampWarn1 (cfg : RestartCfg) : Int :=
  min (max cfg.warn_1_min_sec 0) (clampDelay cfg)

/-- `countdown = min(max(cfg.countdown_sec, 0), warn_1)` (line 35). -/
def clampCountdown (cfg : RestartCfg) : Int :=
  min (max cfg.countdown_sec 0) (clampWarn1 cfg)

/-- The message broadcast for one countdown tick (lines 50-52): the
formatted template, or the generic fallback when formatting raises. -/
def countdownMsg (cfg : RestartCfg) (remaining : Int) : String :=
  match cfg.msg_countdown_fmt remaining with
  | some s => s
  | none => ("Restart in ") ++ toString remaining ++ (" seconds.")

/-- The countdown loop `for remaining in range(countdown, 0, -1)`
(lines 48-54): broadcast, then sleep one second, for
`remaining = n, n-1, ..., 1`. -/
def countdownEvents (cfg : RestartCfg) : Nat → List REvent
  | 0 => []
  | n + 1 =>
    .send (servermsgCmd (countdownMsg cfg ((n : Int) + 1))) ::
    .sleep 1 :: countdownEvents cfg n

/-- `run_restart_sequence` (lines 21-57) as its trace of observable
actions.  The immediate path skips all warnings; the scheduled path clamps
the three durations, broadcasts the 5-minute warning at once, waits, then
the optional 1-minute warning, waits, then the optional per-second
countdown, then save and quit. -/
def run_restart_sequence (cfg : RestartCfg) (immediate : Bool) : List REvent :=
  if immediate then [.send cfg.save_command, .send cfg.quit_command]
  else
    let delay := clampDelay cfg
    let warn1 := clampWarn1 cfg
    let countdown := clampCountdown cfg
    [.send (servermsgCmd cfg.msg_restart_5min)]
      ++ sleepSeconds (delay - warn1)
      ++ (if 0 < warn1 then [.send (servermsgCmd cfg.msg_restart_1min)] else [])
      ++ sleepSeconds (warn1 - countdown)
      ++ (if 0 < countdown then countdownEvents cfg countdown.toNat else [])
      ++ [.send cfg.save_command, .send cfg.quit_command]

/-- The seconds charged by one event to the total blocking time. -/
def eventSleep : REvent → Int
  | .sleep n => n
  | .send _ => 0

/-- Total requested blocking time of a trace. -/
def sleepTotal (l : List REvent) : Int :=
  match l with
  | [] => 0
  | e :: rest => eventSleep e + sleepTotal rest

/-! ## `src/core/players.py`: player-count parsing -/

/-- Python `str.splitlines()` line-break characters other than `\r`
(which is handled together with `\r\n` in `pySplitlines`). -/
def isLineBreakChar (c : Char) : Bool :=
  c = '\n' || c = '\x0b' || c = '\x0c' || c = '\x1c' || c = '\x1d' ||
  c = '\x1e' || c = '\x85' || c = '\u2028' || c = '\u2029'

/-- Worker for `pySplitlines`: `acc` is the current line reversed. -/
def splitlinesAux : List Char → List Char → List (List Char)
  | [], acc => if acc.isEmpty then [] else [acc.reverse]
  | '\r' :: '\n' :: rest, acc => acc.reverse :: splitlinesAux rest []
  | '\r' :: rest, acc => acc.reverse :: splitlinesAux rest []
  | c :: rest, acc =>
    if isLineBreakChar c then acc.reverse :: splitlinesAux rest []
    else splitlinesAux rest (c :: acc)

/-- Python `str.splitlines()`: split at line breaks (`\n`, `\r`, `\r\n`
and the other Unicode breaks), with no trailing empty line after a final
break. -/
def pySplitlines (cs : List Char) : List (List Char) := splitlinesAux cs []

/-- Does the match of `Players connected\s*\((\d+)\)` (with
`re.IGNORECASE`) start at this position?  Returns the captured number. -/
def matchPlayersAt (cs : List Char) : Option Nat :=
  match consumeLit true (("players connected").toList) cs with
  | none => none
  | some r =>
    match r.dropWhile isPySpace with
    | '(' :: r2 =>
      let ds := r2.takeWhile Char.isDigit
      if ds.isEmpty then none
      else
        match r2.dropWhile Char.isDigit with
        | ')' :: _ => some (digitsToNat ds)
        | _ => none
    | _ => none

/-- `re.search`: the leftmost position where the pattern matches. -/
def searchFirst (f : List Char → Option β) : List Char → Option β
  | [] => f []
  | c :: rest =>
    match f (c :: rest) with
    | some b => some b
    | none => searchFirst f rest

/-- Does a line, as listed per player, start with `-`? -/
def startsWithDash : List Char → Bool
  | '-' :: _ => true
  | _ => false

/-- `parse_player_count` (`players.py` lines 9-22): the empty response is
unknown; a `Players connected (N)` match (case-insensitive, anywhere)
yields `N`; else the lines whose stripped text starts with `-` are counted
when there are any; else unknown. -/
def parse_player_count (response : String) : Option Nat :=
  if response = ("") then none
  else
    match searchFirst matchPlayersAt response.toList with
    | some n => some n
    | none =>
      let listed := (pySplitlines response.toList).filter
        (fun l => startsWithDash (pyStrip l))
      if listed.isEmpty then none else some listed.length

/-! ## Theorems -/

/-- Success characterisation of the authentication read loop: the stream
authenticates exactly when some packet of type `2` is reached before the
stream ends, every earlier packet is neither of type `2` nor carries
request id `-1`, and that first type-`2` packet's request id is not `-1`. -/
lemma authenticate_cons_type2 (p : RPacket) (rest : List RPacket)
    (h : p.packetType = 2) :
    authenticate (p :: rest) = some (decide (p.reqId ≠ -1)) := by
  simp [authenticate, h]

lemma authenticate_cons_m1 (p : RPacket) (rest : List RPacket)
    (h2 : p.packetType ≠ 2) (hm : p.reqId = -1) :
    authenticate (p :: rest) = some false := by
  simp [authenticate, h2, hm]

lemma authenticate_cons_skip (p : RPacket) (rest : List RPacket)
    (h2 : p.packetType ≠ 2) (hm : p.reqId ≠ -1) :
    authenticate (p :: rest) = authenticate rest := by
  simp [authenticate, h2, hm]

lemma auth_true_iff (l : List RPacket) :
    authenticate l = some true ↔
      ∃ l₁ p l₂, l = l₁ ++ p :: l₂ ∧ p.packetType = 2 ∧ p.reqId ≠ -1 ∧
        ∀ q ∈ l₁, q.packetType ≠ 2 ∧ q.reqId ≠ -1 := by
  induction l with
  | nil =>
    simp only [authenticate]
    constructor
    · intro h; exact Option.noConfusion h
    · rintro ⟨l₁, p, l₂, h, -⟩
      cases l₁ <;> simp at h
  | cons p rest ih =>
    by_cases h2 : p.packetType = 2
    · rw [authenticate_cons_type2 p rest h2]
      constructor
      · intro h
        have hne : p.reqId ≠ -1 := by
          have := Option.some.inj h
          simpa using of_decide_eq_true this
        exact ⟨[], p, rest, rfl, h2, hne, by simp⟩
      · rintro ⟨l₁, q, l₂, heq, hq2, hqne, hall⟩
        cases l₁ with
        | nil =>
          obtain ⟨rfl, rfl⟩ := List.cons.inj heq
          simp [hqne]
        | cons a l₁' =>
          obtain ⟨rfl, -⟩ := List.cons.inj heq
          exact absurd h2 (hall p (by simp)).1
    · by_cases hm : p.reqId = -1
      · rw [authenticate_cons_m1 p rest h2 hm]
        constructor
        · intro h; exact absurd (Option.some.inj h) (by simp)
        · rintro ⟨l₁, q, l₂, heq, hq2, hqne, hall⟩
          cases l₁ with
          | nil =>
            obtain ⟨rfl, rfl⟩ := List.cons.inj heq
            exact absurd hq2 h2
          | cons a l₁' =>
            obtain ⟨rfl, -⟩ := List.cons.inj heq
            exact absurd hm (hall p (by simp)).2
      · rw [authenticate_cons_skip p rest h2 hm, ih]
        constructor
        · rintro ⟨l₁, q, l₂, heq, hq2, hqne, hall⟩
          refine ⟨p :: l₁, q, l₂, by rw [heq]; rfl, hq2, hqne, ?_⟩
          intro x hx
          rcases List.mem_cons.mp hx with hx | hx
          · subst hx; exact ⟨h2, hm⟩
          · exact hall x hx
        · rintro ⟨l₁, q, l₂, heq, hq2, hqne, hall⟩
          cases l₁ with
          | nil =>
            obtain ⟨rfl, rfl⟩ := List.cons.inj heq
            exact absurd hq2 h2
          | cons a l₁' =>
            obtain ⟨rfl, hrest⟩ := List.cons.inj heq
            exact ⟨l₁', q, l₂, hrest, hq2, hqne,
              fun x hx => hall x (List.mem_cons_of_mem _ hx)⟩

/-- Any packet with request id `-1` reached by the authentication loop
(i.e. preceded only by packets that neither decide nor fail the loop)
makes authentication fail. -/
lemma auth_minus_one (l₁ : List RPacket) (p : RPacket) (l₂ : List RPacket)
    (hall : ∀ q ∈ l₁, q.packetType ≠ 2 ∧ q.reqId ≠ -1) (hm : p.reqId = -1) :
    authenticate (l₁ ++ p :: l₂) = some false := by
  induction l₁ with
  | nil =>
    by_cases h2 : p.packetType = 2
    · rw [List.nil_append, authenticate_cons_type2 p l₂ h2, hm]
      simp
    · rw [List.nil_append, authenticate_cons_m1 p l₂ h2 hm]
  | cons a l₁' ih =>
    have ha := hall a (by simp)
    rw [List.cons_append, authenticate_cons_skip a (l₁' ++ p :: l₂) ha.1 ha.2]
    exact ih (fun q hq => hall q (List.mem_cons_of_mem _ hq))

/-- Claim C2 (counterexample): the claim says authentication succeeds only
if the `AUTH_RESPONSE` packet's request id equals the id that was sent
(`authReqId = 1`).  But `_authenticate` answers `req_id != -1`: an
`AUTH_RESPONSE` carrying request id `5 ≠ 1` still authenticates. -/
theorem C2_counterexample :
    authenticate [{ reqId := 5, packetType := 2, body := [] }] = some true
    ∧ (5 : Int) ≠ authReqId := by decide

/-- Claim C2 (amended): after sending the `AUTH` packet the client reads
packets until one of type `AUTH_RESPONSE` (type 2) arrives; authentication
succeeds if and only if that packet's request id is not `-1` (the sent id
is never compared), and any incoming packet carrying request id `-1`
makes authentication fail. -/
theorem C2_auth_success_iff :
    (∀ l : List RPacket, authenticate l = some true ↔
      ∃ l₁ p l₂, l = l₁ ++ p :: l₂ ∧ p.packetType = 2 ∧ p.reqId ≠ -1 ∧
        ∀ q ∈ l₁, q.packetType ≠ 2 ∧ q.reqId ≠ -1)
    ∧ (∀ (l₁ : List RPacket) (p : RPacket) (l₂ : List RPacket),
        (∀ q ∈ l₁, q.packetType ≠ 2 ∧ q.reqId ≠ -1) → p.reqId = -1 →
        authenticate (l₁ ++ p :: l₂) = some false) :=
  ⟨auth_true_iff, auth_minus_one⟩

/-- Witness for C2 (amended): a lone packet with request id `-1` fails
authentication. -/
theorem C2_auth_success_iff_witness :
    authenticate [{ reqId := -1, packetType := 3, body := [] }] = some false :=
  C2_auth_success_iff.2 [] { reqId := -1, packetType := 3, body := [] } []
    (by simp) rfl

/-- Claim C3: `is_outdated` is true iff the remote time is present and the
local time is absent or older; an absent remote time never marks the mod
outdated.  The four table rows of the spec are checked concretely. -/
theorem C3_is_outdated :
    (∀ s : ModStatus, s.is_outdated = true ↔
      ∃ r, s.remote_time_updated = some r ∧
        (s.local_mtime = none ∨ ∃ l, s.local_mtime = some l ∧ l < r))
    ∧ ModStatus.is_outdated
        { workshop_id := ("1"), local_mtime := none,
          remote_time_updated := some 1000, remote_title := none } = true
    ∧ ModStatus.is_outdated
        { workshop_id := ("1"), local_mtime := some 1000,
          remote_time_updated := some 1000, remote_title := none } = false
    ∧ ModStatus.is_outdated
        { workshop_id := ("1"), local_mtime := some 1000,
          remote_time_updated := some 1001, remote_title := none } = true
    ∧ ModStatus.is_outdated
        { workshop_id := ("1"), local_mtime := some 1000,
          remote_time_updated := none, remote_title := none } = false := by
  refine ⟨?_, by decide, by decide, by decide, by decide⟩
  intro s
  obtain ⟨wid, lm, rt, title⟩ := s
  cases rt with
  | none => simp [ModStatus.is_outdated]
  | some r =>
    cases lm with
    | none => simp [ModStatus.is_outdated]
    | some l => simp [ModStatus.is_outdated]

/-- Claim C6: after the `EXECCOMMAND` packet, `send_command` reads one
packet; a packet whose type is neither `0` nor `2` raises the protocol
error, and a read timeout is a soft success with the empty body. -/
theorem C6_exec_read :
    execResponse .timeout = .ok []
    ∧ (∀ p : RPacket, p.packetType ≠ 0 → p.packetType ≠ 2 →
        execResponse (.packet p) = .error ("Unexpected packet type"))
    ∧ (∀ p : RPacket, p.packetType = 0 ∨ p.packetType = 2 →
        execResponse (.packet p) = .ok p.body) := by
  refine ⟨rfl, ?_, ?_⟩
  · intro p h0 h2
    simp only [execResponse]
    rw [if_neg]
    rintro (h | h)
    · exact h0 h
    · exact h2 h
  · intro p h
    simp only [execResponse]
    rw [if_pos h]

/-- Witness for C6: a packet of type `5` is rejected, one of type `0`
returns its body. -/
theorem C6_exec_read_witness :
    execResponse (.packet { reqId := 9, packetType := 5, body := [] }) =
      .error ("Unexpected packet type")
    ∧ execResponse (.packet { reqId := 1, packetType := 0, body := [65] }) = .ok [65] :=
  ⟨C6_exec_read.2.1 { reqId := 9, packetType := 5, body := [] } (by decide) (by decide),
   C6_exec_read.2.2 { reqId := 1, packetType := 0, body := [65] } (Or.inl rfl)⟩

/-! ### Restart-sequence lemmas (claims C5 and C10) -/

lemma sleepTotal_append (a b : List REvent) :
    sleepTotal (a ++ b) = sleepTotal a + sleepTotal b := by
  induction a with
  | nil => simp [sleepTotal]
  | cons e rest ih =>
    simp only [List.cons_append, sleepTotal, List.append_eq, ih, Int.add_assoc]

lemma sleepTotal_countdown (cfg : RestartCfg) (n : Nat) :
    sleepTotal (countdownEvents cfg n) = n := by
  induction n with
  | zero => rfl
  | succ k ih =>
    simp only [countdownEvents, sleepTotal, eventSleep, ih]
    omega

lemma sleepTotal_sleepSeconds (t : Int) :
    sleepTotal (sleepSeconds t) = max t 0 := by
  unfold sleepSeconds
  split <;> simp [sleepTotal, eventSleep] <;> omega

lemma mem_sleepSeconds {e : REvent} {t : Int} (h : e ∈ sleepSeconds t) :
    e = .sleep t ∧ 0 < t := by
  unfold sleepSeconds at h
  split at h
  · simp at h
  · simp only [List.mem_singleton] at h
    exact ⟨h, by omega⟩

lemma mem_countdown_sleep {cfg : RestartCfg} {n : Int} :
    ∀ k : Nat, REvent.sleep n ∈ countdownEvents cfg k → n = 1 := by
  intro k
  induction k with
  | zero => intro h; simp [countdownEvents] at h
  | succ m ih =>
    intro h
    rcases List.mem_cons.mp h with h | h
    · exact absurd h (by simp)
    · rcases List.mem_cons.mp h with h | h
      · exact (REvent.sleep.inj h.symm).symm ▸ rfl
      · exact ih h

/-- The scheduled branch of `run_restart_sequence`, unfolded. -/
lemma run_restart_sequence_false (cfg : RestartCfg) :
    run_restart_sequence cfg false =
      [.send (servermsgCmd cfg.msg_restart_5min)]
        ++ sleepSeconds (clampDelay cfg - clampWarn1 cfg)
        ++ (if 0 < clampWarn1 cfg then [.send (servermsgCmd cfg.msg_restart_1min)] else [])
        ++ sleepSeconds (clampWarn1 cfg - clampCountdown cfg)
        ++ (if 0 < clampCountdown cfg then countdownEvents cfg (clampCountdown cfg).toNat else [])
        ++ [.send cfg.save_command, .send cfg.quit_command] := rfl

/-- The configuration of the spec's clamping example:
`(delay=300, warn1=600, countdown=10)`. -/
def cfg300 : RestartCfg where
  restart_delay_sec := 300
  warn_1_min_sec := 600
  countdown_sec := 10
  msg_restart_5min := "R5"
  msg_restart_1min := "R1"
  msg_countdown_fmt := fun _ => none
  save_command := "save"
  quit_command := "quit"

/-- Claim C5: the scheduled sequence clamps `warn1` to
`min(max(warn1,0), delay)` and `countdown` to `min(max(countdown,0), warn1)`
(against the clamped delay `max(delay,0)`), so the values used satisfy
`0 ≤ countdown ≤ warn1 ≤ delay`; the spec's example
`(delay=300, warn1=600, countdown=10)` clamps to `warn1=300, countdown=10`
and its trace shows a wait of `0` before the 1-minute warning (no sleep
between the two warnings) and a 10-second visible countdown. -/
theorem C5_clamping :
    (∀ cfg : RestartCfg,
      clampDelay cfg = max cfg.restart_delay_sec 0
      ∧ clampWarn1 cfg = min (max cfg.warn_1_min_sec 0) (clampDelay cfg)
      ∧ clampCountdown cfg = min (max cfg.countdown_sec 0) (clampWarn1 cfg)
      ∧ 0 ≤ clampCountdown cfg
      ∧ clampCountdown cfg ≤ clampWarn1 cfg
      ∧ clampWarn1 cfg ≤ clampDelay cfg)
    ∧ clampWarn1 cfg300 = 300
    ∧ clampCountdown cfg300 = 10
    ∧ run_restart_sequence cfg300 false =
        [.send ("servermsg \"R5\""), .send ("servermsg \"R1\""), .sleep 290,
         .send ("servermsg \"Restart in 10 seconds.\""), .sleep 1,
         .send ("servermsg \"Restart in 9 seconds.\""), .sleep 1,
         .send ("servermsg \"Restart in 8 seconds.\""), .sleep 1,
         .send ("servermsg \"Restart in 7 seconds.\""), .sleep 1,
         .send ("servermsg \"Restart in 6 seconds.\""), .sleep 1,
         .send ("servermsg \"Restart in 5 seconds.\""), .sleep 1,
         .send ("servermsg \"Restart in 4 seconds.\""), .sleep 1,
         .send ("servermsg \"Restart in 3 seconds.\""), .sleep 1,
         .send ("servermsg \"Restart in 2 seconds.\""), .sleep 1,
         .send ("servermsg \"Restart in 1 seconds.\""), .sleep 1,
         .send ("save"), .send ("quit")] := by
  refine ⟨?_, by decide, by decide, by decide⟩
  intro cfg
  refine ⟨rfl, rfl, rfl, ?_, ?_, ?_⟩ <;>
    simp only [clampDelay, clampWarn1, clampCountdown] <;> omega

/-- Claim C10: in the scheduled restart sequence the total requested
blocking time is exactly the clamped delay `max(restart_delay_sec, 0)`,
and every individual sleep in the trace has a non-negative duration. -/
theorem C10_total_blocking (cfg : RestartCfg) :
    sleepTotal (run_restart_sequence cfg false) = max cfg.restart_delay_sec 0
    ∧ ∀ n : Int, REvent.sleep n ∈ run_restart_sequence cfg false → 0 ≤ n := by
  have hWD : clampWarn1 cfg ≤ clampDelay cfg := min_le_right _ _
  have hCW : clampCountdown cfg ≤ clampWarn1 cfg := min_le_right _ _
  have hC0 : 0 ≤ clampCountdown cfg := by
    simp only [clampDelay, clampWarn1, clampCountdown]; omega
  have hD : clampDelay cfg = max cfg.restart_delay_sec 0 := rfl
  constructor
  · rw [run_restart_sequence_false cfg]
    simp only [sleepTotal_append, sleepTotal_sleepSeconds]
    have h1 : sleepTotal [REvent.send (servermsgCmd cfg.msg_restart_5min)] = 0 := rfl
    have h2 : sleepTotal [REvent.send cfg.save_command, REvent.send cfg.quit_command] = 0 := rfl
    rw [h1, h2]
    by_cases hw : 0 < clampWarn1 cfg <;> by_cases hc : 0 < clampCountdown cfg <;>
      simp only [hw, hc, if_pos, if_neg, if_true, if_false, sleepTotal_countdown,
        sleepTotal, eventSleep] <;> omega
  · intro n hn
    rw [run_restart_sequence_false cfg] at hn
    simp only [List.append_assoc, List.mem_append] at hn
    rcases hn with hn | hn | hn | hn | hn | hn
    · simp at hn
    · obtain ⟨heq, hpos⟩ := mem_sleepSeconds hn
      have := REvent.sleep.inj heq
      omega
    · split at hn <;> simp at hn
    · obtain ⟨heq, hpos⟩ := mem_sleepSeconds hn
      have := REvent.sleep.inj heq
      omega
    · split at hn
      · have := mem_countdown_sleep _ hn; omega
      · simp at hn
    · simp at hn

/-- Witness for C10: at the example configuration, the trace's total
requested blocking time is `300` seconds, obtained from the theorem. -/
theorem C10_total_blocking_witness :
    sleepTotal (run_restart_sequence cfg300 false) = max (300 : Int) 0
    ∧ (0 : Int) ≤ 290 := by
  have h := C10_total_blocking cfg300
  exact ⟨h.1, h.2 290 (by decide)⟩

/-! ### Wire-framing lemmas (claim C7) -/

lemma le4_length (u : Nat) : (le4 u).length = 4 := rfl

/-- Decoding the little-endian encoding of an in-range `int32` recovers
the value. -/
lemma unpackInt32_le4 (x : Int) (h1 : -(2 ^ 31) ≤ x) (h2 : x < 2 ^ 31) :
    unpackInt32 (le4 (x % 2 ^ 32).toNat) = x := by
  simp only [unpackInt32, le4]
  split <;> omega

/-- `_recv_exact` on a stream that begins with exactly the requested
bytes. -/
lemma recvExact_exact (n : Nat) (u v : List Nat) (h : u.length = n) :
    recvExact n (u ++ v) = .ok (u, v) := by
  unfold recvExact
  rw [if_neg (by simp only [List.length_append, h]; omega),
    List.take_left' h, List.drop_left' h]

/-- Claim C7: round-trip of the RCON wire framing.  For every in-range
request id and packet type and every body, `_send_packet` produces the
frame `int32 LE (len+10) ++ int32 LE reqId ++ int32 LE type ++ body ++
0x00 0x00`, and `_recv_packet` applied to that frame (followed by any
further stream bytes) recovers exactly the original request id, type and
body, consuming exactly the frame. -/
theorem C7_roundtrip (reqId packetType : Int) (body rest : List Nat)
    (h1 : -(2 ^ 31) ≤ reqId) (h2 : reqId < 2 ^ 31)
    (h3 : -(2 ^ 31) ≤ packetType) (h4 : packetType < 2 ^ 31)
    (h5 : (body.length : Int) + 10 < 2 ^ 31) :
    ∃ bytes, sendPacketBytes reqId packetType body = some bytes ∧
      recvPacket (bytes ++ rest) =
        .ok ({ reqId := reqId, packetType := packetType, body := body }, rest) := by
  have hL1 : -(2 ^ 31) ≤ (body.length : Int) + 10 := by omega
  have hpL : packInt32 ((body.length : Int) + 10) =
      some (le4 (((body.length : Int) + 10) % 2 ^ 32).toNat) := by
    unfold packInt32; rw [if_pos ⟨hL1, h5⟩]
  have hpR : packInt32 reqId = some (le4 (reqId % 2 ^ 32).toNat) := by
    unfold packInt32; rw [if_pos ⟨h1, h2⟩]
  have hpT : packInt32 packetType = some (le4 (packetType % 2 ^ 32).toNat) := by
    unfold packInt32; rw [if_pos ⟨h3, h4⟩]
  set A := le4 ((((body.length : Int) + 10) % 2 ^ 32).toNat) with hAdef
  set B := le4 ((reqId % 2 ^ 32).toNat) with hBdef
  set C := le4 ((packetType % 2 ^ 32).toNat) with hCdef
  refine ⟨A ++ B ++ C ++ body ++ [0, 0], ?_, ?_⟩
  · unfold sendPacketBytes
    rw [hpL, hpR, hpT]
    rfl
  · have hstream : (A ++ B ++ C ++ body ++ [0, 0]) ++ rest =
        A ++ ((B ++ (C ++ (body ++ [0, 0]))) ++ rest) := by
      simp [List.append_assoc]
    rw [hstream]
    unfold recvPacket
    rw [recvExact_exact 4 A _ (le4_length _)]
    simp only []
    rw [unpackInt32_le4 _ hL1 h5]
    rw [if_neg (by omega)]
    have hplen : (B ++ (C ++ (body ++ [0, 0]))).length = ((body.length : Int) + 10).toNat := by
      simp only [List.length_append, hBdef, hCdef, le4_length, List.length_cons,
        List.length_nil]
      omega
    rw [recvExact_exact _ _ _ hplen]
    simp only []
    rw [if_neg (by rw [hplen]; omega)]
    have htake4 : (B ++ (C ++ (body ++ [0, 0]))).take 4 = B :=
      List.take_left' (le4_length _)
    have hdrop4 : (B ++ (C ++ (body ++ [0, 0]))).drop 4 = C ++ (body ++ [0, 0]) :=
      List.drop_left' (le4_length _)
    have htake4' : (C ++ (body ++ [0, 0])).take 4 = C := List.take_left' (le4_length _)
    have hdrop8 : (B ++ (C ++ (body ++ [0, 0]))).drop 8 = body ++ [0, 0] := by
      rw [show (8 : Nat) = 4 + 4 from rfl, ← List.drop_drop, hdrop4]
      exact List.drop_left' (le4_length _)
    have hbodytake : (body ++ [0, 0]).take ((B ++ (C ++ (body ++ [0, 0]))).length - 10) = body := by
      rw [hplen, show ((body.length : Int) + 10).toNat - 10 = body.length from by omega]
      exact List.take_left' rfl
    rw [htake4, hdrop4, htake4', hdrop8, hbodytake,
      unpackInt32_le4 _ h1 h2, unpackInt32_le4 _ h3 h4]

/-- Witness for C7: the round-trip at a concrete packet
(request id 1, type 3, body bytes `[65, 66]`). -/
theorem C7_roundtrip_witness :
    ∃ bytes, sendPacketBytes 1 3 [65, 66] = some bytes ∧
      recvPacket (bytes ++ []) =
        .ok ({ reqId := 1, packetType := 3, body := [65, 66] }, []) :=
  C7_roundtrip 1 3 [65, 66] [] (by decide) (by decide) (by decide) (by decide)
    (by decide)

/-! ### Branch-scoped buildid extraction (claim C8) -/

/-- A steamcmd `app_info_print` style output: a nested VDF blob whose
top-level `"branches"` block holds two sibling branch blocks (`public`
and `unstable`) with different buildids; each branch block itself nests
further key/value lines, so a naive first-closing-brace match would cut
the `branches` block short. -/
def sampleVdf : String :=
  ("\"380870\"\n\x7b\n\t\"depots\"\n\t\x7b\n\t\t\"branches\"\n\t\t\x7b\n") ++
  ("\t\t\t\"public\"\n\t\t\t\x7b\n\t\t\t\t\"buildid\"\t\t\"111111\"\n") ++
  ("\t\t\t\t\"timeupdated\"\t\"1700000000\"\n\t\t\t\x7d\n") ++
  ("\t\t\t\"unstable\"\n\t\t\t\x7b\n\t\t\t\t\"buildid\"\t\t\"222222\"\n") ++
  ("\t\t\t\x7d\n\t\t\x7d\n\t\x7d\n\x7d\n")

set_option maxRecDepth 80000 in
/-- Claim C8: branch-scoped buildid extraction.  On the two-branch nested
blob, the requested branch's buildid is returned and never the sibling's
(`public → 111111`, `unstable → 222222`); a branch absent from the
`branches` block (`beta`) falls back to the first `buildid` occurrence
anywhere in the output; and in general the global fallback is consulted
exactly when the branch-scoped lookup fails. -/
theorem C8_branch_scoped :
    steamcmdBuildid sampleVdf ("public") = some ("111111")
    ∧ steamcmdBuildid sampleVdf ("unstable") = some ("222222")
    ∧ steamcmdBuildid sampleVdf ("beta") = some ("111111")
    ∧ (∀ (out branch : String) (b : List Char),
        (extract_branch_block out.toList branch).bind
            (fun blk => findQuotedKey true keyBuildid blk) = some b →
        steamcmdBuildid out branch = some (String.mk b))
    ∧ (∀ out branch : String,
        (extract_branch_block out.toList branch).bind
            (fun blk => findQuotedKey true keyBuildid blk) = none →
        steamcmdBuildid out branch =
          (findQuotedKey true keyBuildid out.toList).map (fun l => String.mk l)) := by
  refine ⟨by decide, by decide, by decide, ?_, ?_⟩
  · intro out branch b h
    unfold steamcmdBuildid
    rw [h]
  · intro out branch h
    unfold steamcmdBuildid
    rw [h]

set_option maxRecDepth 80000 in
/-- Witness for C8: the branch-scoped conjunct applied at the sample blob
and branch `public`. -/
theorem C8_branch_scoped_witness :
    steamcmdBuildid sampleVdf ("public") = some (String.mk (("111111").toList)) :=
  C8_branch_scoped.2.2.2.1 sampleVdf ("public") (("111111").toList) (by decide)

/-! ### Player-count parsing (claim C9) -/

/-- Claim C9 (counterexample): the claim says that with no
`Players connected (N)` match the result is the number of lines beginning
with `-`, and unknown when there are none.  On the response `"\t- Alice"`
no line begins with `-` (the only line begins with a tab) and the header
does not match, yet the source counts the line after stripping it and
returns 1 instead of the claimed unknown. -/
theorem C9_counterexample :
    parse_player_count ("\t- Alice") = some 1
    ∧ searchFirst matchPlayersAt (("\t- Alice").toList) = none
    ∧ (pySplitlines (("\t- Alice").toList)).all
        (fun l => ¬ startsWithDash l) = true := by
  refine ⟨by decide, by decide, by decide⟩

/-- Claim C9 (amended): for every response string, a case-insensitive
`Players connected (N)` match yields `N`; otherwise, if at least one line
begins with `-` after stripping surrounding whitespace, the result is the
number of such lines; otherwise the count is unknown (the leading
empty-string test of the source is subsumed: the empty string has no match
and no lines).  The spec's three examples are checked concretely. -/
theorem C9_player_count :
    (∀ s : String, parse_player_count s =
      match searchFirst matchPlayersAt s.toList with
      | some n => some n
      | none =>
        let listed := (pySplitlines s.toList).filter (fun l => startsWithDash (pyStrip l))
        if listed.isEmpty then none else some listed.length)
    ∧ parse_player_count ("Players connected (3)\n- Alice\n- Bob\n- Carol") = some 3
    ∧ parse_player_count ("- Alice\n- Bob\n- Carol") = some 3
    ∧ parse_player_count ("") = none := by
  refine ⟨?_, by decide, by decide, by decide⟩
  intro s
  by_cases hs : s = ("")
  · subst hs; rfl
  · unfold parse_player_count
    rw [if_neg hs]

/-! ### Update-check lemmas (claims C1 and C4) -/

lemma quotedKeyLine_not_empty (ci : Bool) (key line ds : List Char)
    (h : quotedKeyLine ci key line = some ds) : ¬ ds.isEmpty := by
  unfold quotedKeyLine at h
  split at h
  · exact Option.noConfusion h
  · split at h
    · split at h
      · exact Option.noConfusion h
      · split at h
        · split at h
          · obtain rfl := Option.some.inj h
            assumption
          · exact Option.noConfusion h
        · exact Option.noConfusion h
    · exact Option.noConfusion h

lemma findSome_imp {α β : Type} (f : α → Option β) :
    ∀ (l : List α) (b : β), l.findSome? f = some b → ∃ a, f a = some b := by
  intro l
  induction l with
  | nil => intro b h; simp [List.findSome?] at h
  | cons x xs ih =>
    intro b h
    rw [List.findSome?_cons] at h
    cases hfx : f x with
    | some y =>
      rw [hfx] at h
      simp at h
      exact ⟨x, by rw [hfx, h]⟩
    | none => rw [hfx] at h; exact ih b h

/-- Every digit group captured by the `"<key>" "(\d+)"` scanners is
nonempty (`\d+` requires at least one digit). -/
lemma findQuotedKey_not_empty (ci : Bool) (key text ds : List Char)
    (h : findQuotedKey ci key text = some ds) : ¬ ds.isEmpty := by
  obtain ⟨line, hline⟩ := findSome_imp _ _ _ h
  exact quotedKeyLine_not_empty ci key line ds hline

lemma stringMk_not_isEmpty (ds : List Char) (h : ¬ ds.isEmpty) :
    ¬ (String.mk ds).isEmpty := by
  intro he
  have h2 : String.mk ds = ("") := (String.isEmpty_iff _).mp he
  have h3 : ds = [] := by simpa using congrArg String.data h2
  rw [h3] at h
  simp at h

/-- A present local buildid is never the empty string: it is captured by
the digits group of the manifest scanner. -/
lemma local_buildid_not_empty (w : World) (s : String)
    (h : (parse_appmanifest_build_info w).1 = some s) : ¬ s.isEmpty := by
  unfold parse_appmanifest_build_info at h
  split at h
  · exact Option.noConfusion h
  · simp only [Option.map_eq_some'] at h
    obtain ⟨ds, hds, rfl⟩ := h
    exact stringMk_not_isEmpty ds (findQuotedKey_not_empty false keyBuildid _ ds hds)

lemma steamcmdBuildid_not_empty (output branch : String) (s : String)
    (h : steamcmdBuildid output branch = some s) : ¬ s.isEmpty := by
  unfold steamcmdBuildid at h
  split at h
  · next b heq =>
    obtain rfl := Option.some.inj h
    obtain ⟨blk, hblk, hfind⟩ := Option.bind_eq_some.mp heq
    exact stringMk_not_isEmpty b (findQuotedKey_not_empty true keyBuildid blk b hfind)
  · simp only [Option.map_eq_some'] at h
    obtain ⟨ds, hds, rfl⟩ := h
    exact stringMk_not_isEmpty ds (findQuotedKey_not_empty true keyBuildid _ ds hds)

/-- A present remote buildid is never the empty string. -/
lemma remote_buildid_not_empty (w : World) (branch : String) (s : String)
    (h : (steamcmd_get_buildid w branch).1 = some s) : ¬ s.isEmpty := by
  unfold steamcmd_get_buildid at h
  split at h
  · exact Option.noConfusion h
  · split at h
    · exact Option.noConfusion h
    · split at h
      · next b heq =>
        obtain rfl := Option.some.inj h
        exact steamcmdBuildid_not_empty _ _ _ heq
      · exact Option.noConfusion h

/-- The Python truthiness test of lines 52-54 of `updates.py`, under the
guarantee that present buildids are nonempty, is exactly "both present and
unequal". -/
lemma serverOutdatedCalc_iff (lo ro : Option String)
    (hl : ∀ s, lo = some s → ¬ s.isEmpty) (hr : ∀ s, ro = some s → ¬ s.isEmpty) :
    serverOutdatedCalc lo ro = true ↔
      ∃ l r, lo = some l ∧ ro = some r ∧ l ≠ r := by
  cases lo with
  | none => simp [serverOutdatedCalc]
  | some l =>
    cases ro with
    | none => simp [serverOutdatedCalc]
    | some r =>
      have hl' := hl l rfl
      have hr' := hr r rfl
      simp [serverOutdatedCalc, hl', hr']

/-- Claim C4: in every `UpdateResult` produced by `check_updates`,
`server_outdated` is true iff the local and remote build ids are both
present and unequal as strings; absence of either side yields `false`.
(The comparison is string inequality of the captured digit groups, not a
numeric comparison.) -/
theorem C4_server_outdated (w : World) (branch : String) (r : UpdateResult)
    (h : check_updates w branch = .ok r) :
    r.server_outdated = true ↔
      ∃ lb rb, r.local_buildid = some lb ∧ r.remote_buildid = some rb ∧ lb ≠ rb := by
  unfold check_updates at h
  split at h
  · exact Except.noConfusion h
  · obtain rfl := Except.ok.inj h
    exact serverOutdatedCalc_iff _ _
      (fun s hs => local_buildid_not_empty w s hs)
      (fun s hs => remote_buildid_not_empty w branch s hs)

lemma fetch_ok (ids : List String) (items : List ApiItem) :
    fetch_published_details ids (.ok items) =
      .ok (if ids.isEmpty then [] else items.foldl applyItem []) := by
  unfold fetch_published_details
  by_cases hids : ids.isEmpty
  · rw [if_pos hids, if_pos hids]
  · rw [if_neg hids, if_neg hids]

/-- Claim C1 (amended): `check_updates` returns an `UpdateResult`
whenever the ini file is present and the catalog request itself succeeds,
for every outcome of the manifest file, the local mod folders and the
steamcmd tool — external-tool failure degrades to the `steamcmd_error`
diagnostic and absent build ids, and per-item catalog failures degrade to
absent remote times.  (A transport-level catalog failure, by contrast,
propagates: see the counterexample.) -/
theorem C1_no_raise (w : World) (branch : String) (items : List ApiItem)
    (h1 : w.iniExists = true) (h2 : w.apiOutcome = .ok items) :
    ∃ r, check_updates w branch = .ok r := by
  have hparse : parse_workshop_ids_from_ini w = .ok (parseWorkshopIds w.iniText) := by
    unfold parse_workshop_ids_from_ini
    rw [h1]
    simp
  obtain ⟨m, hm⟩ : ∃ m, fetch_published_details (parseWorkshopIds w.iniText) w.apiOutcome
      = .ok m := by
    rw [h2, fetch_ok]
    exact ⟨_, rfl⟩
  obtain ⟨sts, hsts⟩ : ∃ sts, build_mod_statuses w = .ok sts := by
    unfold build_mod_statuses
    rw [hparse]
    simp only [hm]
    exact ⟨_, rfl⟩
  exact ⟨{ mods_outdated := sts.any (fun s => s.is_outdated),
           server_outdated := serverOutdatedCalc (parse_appmanifest_build_info w).1
             (steamcmd_get_buildid w branch).1,
           mod_statuses := sts,
           local_buildid := (parse_appmanifest_build_info w).1,
           remote_buildid := (steamcmd_get_buildid w branch).1,
           steamcmd_error := (steamcmd_get_buildid w branch).2 },
         by unfold check_updates; rw [hsts]⟩

/-- A run in which the ini file exists and names one workshop item, but
the catalog API is unreachable (every other effect irrelevant). -/
def c1World : World where
  iniExists := true
  iniText := "WorkshopItems=123"
  apiOutcome := .error ("network unreachable")
  localMtime := fun _ => none
  manifestExists := false
  manifestText := ""
  steamcmdExists := false
  steamcmdRun := .error ("")

set_option maxRecDepth 40000 in
/-- Claim C1 (counterexample): the claim says a network/catalog failure
degrades to absent remote times rather than propagating.  But
`fetch_published_details` performs the POST without any handler, so with a
nonempty workshop-id list an unreachable catalog propagates the exception
out of `check_updates` instead of producing an `UpdateResult` (the caller
in `main.run_once` catches it and logs "Update check failed"). -/
theorem C1_counterexample :
    check_updates c1World ("public") = .error (.apiError ("network unreachable")) := rfl

/-- As `c1World` but with a successful (empty) catalog response. -/
def c1GoodWorld : World where
  iniExists := true
  iniText := "WorkshopItems=123"
  apiOutcome := .ok []
  localMtime := fun _ => none
  manifestExists := false
  manifestText := ""
  steamcmdExists := false
  steamcmdRun := .error ("")

/-- Witness for C1 (amended): with the ini present and the catalog
reachable, `check_updates` returns a result even though both the manifest
and the tool are missing. -/
theorem C1_no_raise_witness :
    ∃ r, check_updates c1GoodWorld ("public") = .ok r :=
  C1_no_raise c1GoodWorld ("public") [] rfl rfl

/-- A run with an empty mod list, a local manifest buildid `100` and a
steamcmd output whose `public` branch carries buildid `111111`. -/
def c4World : World where
  iniExists := true
  iniText := ""
  apiOutcome := .ok []
  localMtime := fun _ => none
  manifestExists := true
  manifestText := ("\"buildid\"\t\t\"100\"\n")
  steamcmdExists := true
  steamcmdRun := .ok sampleVdf

/-- The `UpdateResult` of `check_updates` on `c4World`. -/
def c4Result : UpdateResult where
  mods_outdated := false
  server_outdated := true
  mod_statuses := []
  local_buildid := some ("100")
  remote_buildid := some ("111111")
  steamcmd_error := none

set_option maxRecDepth 80000 in
/-- Witness for C4: the characterisation applied to the concrete run with
local buildid `100` and remote buildid `111111`. -/
theorem C4_server_outdated_witness :
    c4Result.server_outdated = true ↔
      ∃ lb rb, c4Result.local_buildid = some lb ∧ c4Result.remote_buildid = some rb
        ∧ lb ≠ rb :=
  C4_server_outdated c4World ("public") c4Result rfl

end PZ
